import Mathlib

set_option linter.unusedVariables false

/-!
Shallow embedding of the `useTheme` composable of `vue-theme-plugin`
(source: `src/unnamed/part_000`).

The composable owns a reactive current-theme string, applies CSS class and
`data-theme` markers to the document root, and persists the selection in a
pluggable key-value storage backend.  We model:

* the document root as an explicit `RootElement` value (class token list plus
  the optional `data-theme` attribute),
* the resolved storage backend as `Option (List (String × String))` — `none`
  when `storage: 'none'` was selected, otherwise the backend's key-value
  content,
* the `themes` record as an association list `List (ThemeName × ThemeConfig)`
  (`Object.values` iterates the entries in order; lookup takes the first
  matching key),
* `detectTheme` as `Option (Option ThemeName)`: whether the caller supplied a
  detection function, and, if so, the value that invoking it returns,
* JavaScript string truthiness faithfully: the guards `if (cls)`,
  `if (config?.class)`, `if (config?.dataTheme)`, `stored && …` and
  `detected && …` all treat the empty string like absence.

The mount-time initializer (the `onMounted` callback) is embedded as
`initializeTheme`; it additionally reports which value it resolved and whether
the `detectTheme` callback was actually invoked, so that the invocation-order
claims can be stated.
-/

namespace VueThemePlugin

/-- A theme is identified by its string name (source type `ThemeName`). -/
abbrev ThemeName := String

/-- Visual descriptor of a theme (source type `ThemeConfig`): an optional CSS
class marker and an optional value for the root's `data-theme` attribute. -/
structure ThemeConfig where
  «class» : Option String := none
  dataTheme : Option String := none
  deriving DecidableEq

/-- Construction-time configuration (source type `ThemeOptions`).  The
`storage` selector is not part of this record: its resolution to a backend (or
to `null` for `'none'`) is modelled by the `storage` field of `ThemeState`. -/
structure ThemeOptions where
  defaultTheme : Option ThemeName := none
  available : List ThemeName
  themes : List (ThemeName × ThemeConfig) := []
  key : String := "theme"
  detectTheme : Option (Option ThemeName) := none
  deriving DecidableEq

/-- The document root: `classList` (an ordered token set, as in the DOM) and
the current value of the `data-theme` attribute (`none` when absent). -/
structure RootElement where
  classList : List String := []
  dataTheme : Option String := none
  deriving DecidableEq

/-- DOM `classList.add`: appends the token unless it is already present. -/
def addClassToken (l : List String) (c : String) : List String :=
  if c ∈ l then l else l ++ [c]

/-- DOM `classList.remove`: removes every occurrence of the token. -/
def removeClassToken (l : List String) (c : String) : List String :=
  l.filter (fun x => x ≠ c)

/-- `StorageLike.getItem`: first binding of the key, `null` when absent. -/
def storeGet (kvs : List (String × String)) (k : String) : Option String :=
  (kvs.find? (fun p => p.1 = k)).map Prod.snd

/-- `StorageLike.setItem`: overwrite the binding of the key, or append it. -/
def storeSet (kvs : List (String × String)) (k v : String) :
    List (String × String) :=
  if kvs.any (fun p => p.1 = k) then
    kvs.map (fun p => if p.1 = k then (k, v) else p)
  else
    kvs ++ [(k, v)]

/-- Mutable state owned by one `useTheme` controller: the reactive `theme`
ref, the document root it mutates, and the resolved storage backend
(`none` when persistence is disabled). -/
structure ThemeState where
  theme : ThemeName
  root : RootElement
  storage : Option (List (String × String))
  deriving DecidableEq

/-- `defaultTheme = options.available[0]` destructuring default: the supplied
default wins whenever it is present (even `""`), otherwise the first available
entry is used. -/
def resolveDefault (opts : ThemeOptions) : ThemeName :=
  opts.defaultTheme.getD (opts.available.headD "")

/-- Construction: `const theme = ref<ThemeName>(defaultTheme)` — the reactive
state starts at the resolved default; root and storage content are the ambient
collaborators handed to the controller. -/
def mkState (opts : ThemeOptions) (root : RootElement)
    (storage : Option (List (String × String))) : ThemeState :=
  { theme := resolveDefault opts, root := root, storage := storage }

/-- The sweep in `_applyTheme`: `Object.values(themes).forEach(({class: cls})
=> { if (cls) el.classList.remove(cls) })` — removes the class marker of every
configured theme (skipping absent and empty markers, which are falsy). -/
def sweepClasses (themes : List (ThemeName × ThemeConfig))
    (l : List String) : List String :=
  themes.foldl
    (fun acc p =>
      match p.2.«class» with
      | some cls => if cls ≠ "" then removeClassToken acc cls else acc
      | none => acc)
    l

/-- Record lookup `themes[name]`: the first entry with the given key. -/
def themeLookup (themes : List (ThemeName × ThemeConfig)) (name : ThemeName) :
    Option ThemeConfig :=
  (themes.find? (fun p => p.1 = name)).map Prod.snd

/-- The private `_applyTheme`: sweep away all configured class markers, add
the new theme's class (if truthy), and set the `data-theme` attribute to the
new theme's `dataTheme` (if truthy) or remove the attribute otherwise. -/
def applyThemeVisuals (themes : List (ThemeName × ThemeConfig))
    (name : ThemeName) (root : RootElement) : RootElement :=
  let config := themeLookup themes name
  let swept := sweepClasses themes root.classList
  let classes :=
    match config with
    | some cfg =>
      match cfg.«class» with
      | some cls => if cls ≠ "" then addClassToken swept cls else swept
      | none => swept
    | none => swept
  let dt :=
    match config with
    | some cfg =>
      match cfg.dataTheme with
      | some v => if v ≠ "" then some v else none
      | none => none
    | none => none
  { classList := classes, dataTheme := dt }

/-- `setTheme(value)`: no-op when the value is not available or equals the
current theme; otherwise update the state, apply the visuals, and persist the
value under `key` (when a backend is present). -/
def setTheme (opts : ThemeOptions) (st : ThemeState) (value : ThemeName) :
    ThemeState :=
  if value ∈ opts.available then
    if st.theme = value then st
    else
      { theme := value
        root := applyThemeVisuals opts.themes value st.root
        storage := st.storage.map (fun kvs => storeSet kvs opts.key value) }
  else st

/-- `Array.prototype.indexOf` on the available list: index of the first
occurrence, `-1` when absent. -/
def idxOfAux : List String → String → Option Nat
  | [], _ => none
  | x :: xs, v => if x = v then some 0 else (idxOfAux xs v).map (· + 1)

/-- JavaScript `available.indexOf(v)` as an integer (`-1` when absent). -/
def jsIndexOf (l : List String) (v : String) : Int :=
  match idxOfAux l v with
  | some i => (i : Int)
  | none => -1

/-- `toggleTheme()`: advance from the current theme's index to
`(index + 1) % available.length` and set that theme. -/
def toggleTheme (opts : ThemeOptions) (st : ThemeState) : ThemeState :=
  let currentIndex := jsIndexOf opts.available st.theme
  let nextIndex := (currentIndex + 1) % (opts.available.length : Int)
  setTheme opts st (opts.available.getD nextIndex.toNat "")

/-- `resolvedStorage?.getItem(key)` as seen by the initializer. -/
def readStored (opts : ThemeOptions) (st : ThemeState) : Option String :=
  st.storage.bind (fun kvs => storeGet kvs opts.key)

/-- `const isValid = stored && available.includes(stored)`: the stored value
is valid when present, truthy (non-empty) and available. -/
def storedValid (opts : ThemeOptions) (st : ThemeState) : Bool :=
  match readStored opts st with
  | some s => s ≠ "" ∧ s ∈ opts.available
  | none => false

/-- Result of the mount-time initializer: the state after the final `setTheme`
call, the resolved startup theme, and whether `detectTheme` was invoked. -/
structure InitResult where
  state : ThemeState
  resolved : ThemeName
  detectInvoked : Bool
  deriving DecidableEq

/-- The `onMounted` callback: read the stored value, validate it, fall back to
the detection callback (invoked only when the stored value is invalid and a
callback was supplied), then to the resolved default, and `setTheme` the
resolved value. -/
def initializeTheme (opts : ThemeOptions) (st : ThemeState) : InitResult :=
  let stored := readStored opts st
  let isValid := storedValid opts st
  let detectInvoked := !isValid && opts.detectTheme.isSome
  let detected : Option ThemeName :=
    if detectInvoked then opts.detectTheme.getD none else none
  let initial : ThemeName :=
    if isValid then stored.getD ""
    else
      match detected with
      | some d =>
        if d ≠ "" ∧ d ∈ opts.available then d else resolveDefault opts
      | none => resolveDefault opts
  { state := setTheme opts st initial
    resolved := initial
    detectInvoked := detectInvoked }

/-- One user-triggered mutation of the controller. -/
inductive ThemeOp where
  | set : ThemeName → ThemeOp
  | toggle : ThemeOp
  deriving DecidableEq

/-- Run one mutation against the controller state. -/
def applyOp (opts : ThemeOptions) (st : ThemeState) : ThemeOp → ThemeState
  | ThemeOp.set v => setTheme opts st v
  | ThemeOp.toggle => toggleTheme opts st

/-- Run a sequence of mutations against the controller state. -/
def runOps (opts : ThemeOptions) (st : ThemeState) :
    List ThemeOp → ThemeState
  | [] => st
  | op :: rest => runOps opts (applyOp opts st op) rest

/-! Concrete configurations used by the counterexamples and witnesses. -/

/-- Options of the spec's end-to-end scenario: two themes, default `"blue"`,
no detection callback. -/
def scenOpts : ThemeOptions :=
  { defaultTheme := some "blue"
    available := ["red", "blue"]
    themes := [("red", { «class» := some "theme-red" }),
               ("blue", { «class» := some "theme-blue", dataTheme := some "blue" })]
    key := "theme"
    detectTheme := none }

/-- Scenario start state: empty root, persistence backend present but empty
(no stored value). -/
def scenState : ThemeState := mkState scenOpts {} (some [])

/-- Theme drift scenario, before the drift: both `"x"` and `"y"` configured. -/
def driftOpts1 : ThemeOptions :=
  { available := ["x", "y"]
    themes := [("x", { «class» := some "cx" }), ("y", { «class» := some "cy" })] }

/-- Theme drift scenario, after the drift: the caller has deleted `"x"`'s
entry from the (shared, mutable) `themes` record. -/
def driftOpts2 : ThemeOptions :=
  { available := ["x", "y"]
    themes := [("y", { «class» := some "cy" })] }

/-- Theme drift scenario start state: current theme `"y"`, empty root. -/
def driftState : ThemeState := { theme := "y", root := {}, storage := none }

/-- A controller whose supplied `defaultTheme` lies outside `available`. -/
def strayOpts : ThemeOptions :=
  { defaultTheme := some "purple", available := ["a", "b"] }

/-- Construction state of `strayOpts`: the theme ref starts at `"purple"`,
which is not an available theme. -/
def strayState : ThemeState := mkState strayOpts {} none

/-- Options whose `available` list contains the empty string. -/
def emptyNameOpts : ThemeOptions :=
  { defaultTheme := some "x", available := ["", "x"] }

/-- State for `emptyNameOpts` whose backend stores `""` under `"theme"`. -/
def emptyNameState : ThemeState :=
  { theme := "x", root := {}, storage := some [("theme", "")] }

/-- A three-theme controller used to exercise the toggle cycle. -/
def cycleOpts : ThemeOptions := { available := ["a", "b", "c"] }

/-- Construction state of `cycleOpts` (default resolves to `"a"`). -/
def cycleState : ThemeState := mkState cycleOpts {} none

/-- A controller with a valid stored value and a detection callback that
would return a different available theme. -/
def storedOpts : ThemeOptions :=
  { available := ["s", "d"], detectTheme := some (some "d") }

/-- State for `storedOpts` whose backend stores `"s"` under `"theme"`. -/
def storedState : ThemeState :=
  { theme := "s", root := {}, storage := some [("theme", "s")] }

/-! Helper lemmas about the DOM token operations. -/

theorem mem_removeClassToken {l : List String} {c d : String} :
    c ∈ removeClassToken l d ↔ c ∈ l ∧ c ≠ d := by
  simp [removeClassToken, List.mem_filter]

theorem mem_addClassToken {l : List String} {c d : String} :
    c ∈ addClassToken l d ↔ c ∈ l ∨ c = d := by
  by_cases hd : d ∈ l
  · rw [addClassToken, if_pos hd]
    constructor
    · exact Or.inl
    · rintro (h | rfl)
      · exact h
      · exact hd
  · rw [addClassToken, if_neg hd]
    simp

theorem sweepClasses_cons (p : ThemeName × ThemeConfig)
    (ts : List (ThemeName × ThemeConfig)) (l : List String) :
    sweepClasses (p :: ts) l =
      sweepClasses ts
        (match p.2.«class» with
         | some cls => if cls ≠ "" then removeClassToken l cls else l
         | none => l) := rfl

theorem mem_of_mem_sweepClasses {ts : List (ThemeName × ThemeConfig)}
    {l : List String} {c : String} (h : c ∈ sweepClasses ts l) : c ∈ l := by
  induction ts generalizing l with
  | nil => exact h
  | cons p ts ih =>
    rw [sweepClasses_cons] at h
    have h2 := ih h
    rcases hp : p.2.«class» with _ | cls
    · rwa [hp] at h2
    · rw [hp] at h2
      dsimp only at h2
      by_cases hc : cls ≠ ""
      · rw [if_pos hc] at h2
        exact (mem_removeClassToken.mp h2).1
      · rwa [if_neg hc] at h2

theorem not_mem_sweepClasses {ts : List (ThemeName × ThemeConfig)}
    {l : List String} {n : ThemeName} {cfg : ThemeConfig} {cls : String}
    (hmem : (n, cfg) ∈ ts) (hcls : cfg.«class» = some cls) (hne : cls ≠ "") :
    cls ∉ sweepClasses ts l := by
  induction ts generalizing l with
  | nil => cases hmem
  | cons p ts ih =>
    intro habs
    rw [sweepClasses_cons] at habs
    rcases List.mem_cons.mp hmem with heq | htail
    · rw [← heq] at habs
      simp only [hcls] at habs
      rw [if_pos hne] at habs
      have hmem2 := mem_of_mem_sweepClasses habs
      exact (mem_removeClassToken.mp hmem2).2 rfl
    · exact ih htail habs

/-! Helper lemmas about `setTheme`. -/

theorem setTheme_of_not_mem (opts : ThemeOptions) (st : ThemeState)
    (v : ThemeName) (h : v ∉ opts.available) : setTheme opts st v = st := by
  rw [setTheme, if_neg h]

theorem setTheme_current (opts : ThemeOptions) (st : ThemeState) :
    setTheme opts st st.theme = st := by
  rw [setTheme]
  split
  · rw [if_pos rfl]
  · rfl

theorem setTheme_theme_of_mem (opts : ThemeOptions) (st : ThemeState)
    (v : ThemeName) (h : v ∈ opts.available) :
    (setTheme opts st v).theme = v := by
  rw [setTheme, if_pos h]
  split
  · next heq => exact heq
  · rfl

theorem setTheme_theme_cases (opts : ThemeOptions) (st : ThemeState)
    (v : ThemeName) :
    (setTheme opts st v).theme = st.theme ∨
      ((setTheme opts st v).theme = v ∧ v ∈ opts.available) := by
  by_cases h : v ∈ opts.available
  · exact Or.inr ⟨setTheme_theme_of_mem opts st v h, h⟩
  · rw [setTheme_of_not_mem opts st v h]
    exact Or.inl rfl

/-! Helper lemmas about `jsIndexOf`, `List.getD` and `toggleTheme`. -/

theorem idxOfAux_eq_none_of_not_mem {l : List String} {v : String}
    (h : v ∉ l) : idxOfAux l v = none := by
  induction l with
  | nil => rfl
  | cons x xs ih =>
    have hx : ¬x = v := fun e => h (e ▸ List.mem_cons_self x xs)
    simp only [idxOfAux, if_neg hx,
      ih (fun hm => h (List.mem_cons_of_mem x hm)), Option.map_none']

theorem jsIndexOf_eq_neg_one_of_not_mem {l : List String} {v : String}
    (h : v ∉ l) : jsIndexOf l v = -1 := by
  rw [jsIndexOf, idxOfAux_eq_none_of_not_mem h]

theorem neg_one_le_jsIndexOf (l : List String) (v : String) :
    -1 ≤ jsIndexOf l v := by
  rw [jsIndexOf]
  rcases idxOfAux l v with _ | i
  · exact le_refl _
  · exact le_trans (by norm_num) (Int.ofNat_nonneg i)

theorem getD_mem_of_lt :
    ∀ {l : List String} {n : Nat}, n < l.length → ∀ d, l.getD n d ∈ l
  | x :: xs, 0, _, d => List.mem_cons_self x xs
  | x :: xs, n + 1, h, d =>
    List.mem_cons_of_mem x (getD_mem_of_lt (Nat.lt_of_succ_lt_succ h) d)

theorem toggleTheme_eq_setTheme (opts : ThemeOptions) (st : ThemeState) :
    toggleTheme opts st =
      setTheme opts st
        (opts.available.getD
          (((jsIndexOf opts.available st.theme + 1) %
            (opts.available.length : Int)).toNat) "") := rfl

theorem toggle_next_lt (opts : ThemeOptions) (st : ThemeState)
    (hne : opts.available ≠ []) :
    ((jsIndexOf opts.available st.theme + 1) %
      (opts.available.length : Int)).toNat < opts.available.length := by
  have hlen : 0 < opts.available.length := List.length_pos.mpr hne
  have hlen2 : (0 : Int) < (opts.available.length : Int) := by exact_mod_cast hlen
  have h0 : 0 ≤ (jsIndexOf opts.available st.theme + 1) %
      (opts.available.length : Int) :=
    Int.emod_nonneg _ (ne_of_gt hlen2)
  have h1 : (jsIndexOf opts.available st.theme + 1) %
      (opts.available.length : Int) < (opts.available.length : Int) :=
    Int.emod_lt_of_pos _ hlen2
  omega

theorem toggleTheme_theme_getD (opts : ThemeOptions) (st : ThemeState)
    (hne : opts.available ≠ []) :
    (toggleTheme opts st).theme =
      opts.available.getD
        (((jsIndexOf opts.available st.theme + 1) %
          (opts.available.length : Int)).toNat) "" := by
  rw [toggleTheme_eq_setTheme]
  exact setTheme_theme_of_mem opts st _
    (getD_mem_of_lt (toggle_next_lt opts st hne) "")

/-! Helper lemma characterising the class list after `_applyTheme`. -/

theorem applyThemeVisuals_classList_eq
    (themes : List (ThemeName × ThemeConfig)) (name : ThemeName)
    (root : RootElement) :
    (applyThemeVisuals themes name root).classList =
      (match themeLookup themes name with
       | some cfg =>
         match cfg.«class» with
         | some cls =>
           if cls ≠ "" then addClassToken (sweepClasses themes root.classList) cls
           else sweepClasses themes root.classList
         | none => sweepClasses themes root.classList
       | none => sweepClasses themes root.classList) := rfl

/-! Claim C6: requesting an unavailable theme is a silent no-op. -/

/-- C6: for every name not in `available`, `setTheme(name)` leaves the
current-theme state, the root element's DOM markers and the storage backend
all unchanged, and raises no error (the operation is total). -/
theorem setTheme_invalid_silent_noop (opts : ThemeOptions) (st : ThemeState)
    (v : ThemeName) (h : v ∉ opts.available) : setTheme opts st v = st :=
  setTheme_of_not_mem opts st v h

/-- C6 witness: `"zzz"` is not an available theme of the scenario controller,
and requesting it changes nothing. -/
theorem setTheme_invalid_silent_noop_witness :
    "zzz" ∉ scenOpts.available ∧ setTheme scenOpts scenState "zzz" = scenState :=
  ⟨by decide, setTheme_invalid_silent_noop scenOpts scenState "zzz" (by decide)⟩

/-! Claim C7: setting an available theme makes it the current theme. -/

/-- C7: for every name in `available`, calling `setTheme(name)` and then
reading the current-theme state returns that name. -/
theorem setTheme_valid_sets_theme (opts : ThemeOptions) (st : ThemeState)
    (v : ThemeName) (h : v ∈ opts.available) :
    (setTheme opts st v).theme = v :=
  setTheme_theme_of_mem opts st v h

/-- C7 witness: `"red"` is available in the scenario controller and setting it
makes it current. -/
theorem setTheme_valid_sets_theme_witness :
    "red" ∈ scenOpts.available ∧
      (setTheme scenOpts scenState "red").theme = "red" :=
  ⟨by decide, setTheme_valid_sets_theme scenOpts scenState "red" (by decide)⟩

/-! Claim C9: `setTheme` is idempotent. -/

/-- C9: calling `setTheme(name)` twice in a row produces exactly the same
state (theme, DOM markers and storage content) as calling it once — the
second call passes through the equality guard and performs no update. -/
theorem setTheme_idem (opts : ThemeOptions) (st : ThemeState)
    (v : ThemeName) :
    setTheme opts (setTheme opts st v) v = setTheme opts st v := by
  by_cases h : v ∈ opts.available
  · have hth := setTheme_theme_of_mem opts st v h
    rw [setTheme, if_pos h, if_pos hth]
  · rw [setTheme_of_not_mem opts st v h, setTheme_of_not_mem opts st v h]

/-! Claim C5: the initializer's `setTheme` call is effect-free when the
resolved startup value equals the construction default. -/

/-- C5: starting from the construction state (whose theme is the resolved
default), when the value resolved by the initializer equals that default the
final `setTheme` call changes nothing at all — no theme update, no DOM marker
write, no storage write.  Consequently the initializer has visible side
effects only when the resolved value differs from the default. -/
theorem initialize_frame_effect (opts : ThemeOptions) (st : ThemeState)
    (hdef : st.theme = resolveDefault opts)
    (hres : (initializeTheme opts st).resolved = resolveDefault opts) :
    (initializeTheme opts st).state = st := by
  have hstate : (initializeTheme opts st).state =
      setTheme opts st (initializeTheme opts st).resolved := rfl
  rw [hstate, hres, ← hdef, setTheme_current]

/-- C5 witness: in the spec's own scenario the resolved value `"blue"` equals
the construction default, and the initializer leaves the state untouched. -/
theorem initialize_frame_effect_witness :
    scenState.theme = resolveDefault scenOpts ∧
      (initializeTheme scenOpts scenState).resolved = resolveDefault scenOpts ∧
      (initializeTheme scenOpts scenState).state = scenState :=
  ⟨rfl, by decide,
    initialize_frame_effect scenOpts scenState rfl (by decide)⟩

/-! Claim C10: toggling while the current theme is outside `available` lands
on the first available entry. -/

/-- C10: when the current theme is not a member of `available` (for example a
supplied `defaultTheme` outside `available`, before the initializer corrects
it), `indexOf` yields `-1`, the next index is `(-1 + 1) % length = 0`, and
`toggleTheme()` sets the theme to the first entry of `available`. -/
theorem toggle_from_outside_goes_first (opts : ThemeOptions) (st : ThemeState)
    (hne : opts.available ≠ []) (h : st.theme ∉ opts.available) :
    jsIndexOf opts.available st.theme = -1 ∧
      (toggleTheme opts st).theme = opts.available.headD "" := by
  have hidx := jsIndexOf_eq_neg_one_of_not_mem h
  refine ⟨hidx, ?_⟩
  rw [toggleTheme_theme_getD opts st hne, hidx]
  have hz : ((-1 + 1) % (opts.available.length : Int)).toNat = 0 := by
    norm_num
  rw [hz]
  have hgd : ∀ l : List String, l.getD 0 "" = l.headD "" := by
    intro l
    cases l <;> rfl
  exact hgd _

/-- C10 witness: the stray controller starts at `"purple" ∉ ["a", "b"]`; its
index lookup yields `-1` and one toggle lands on `"a"`. -/
theorem toggle_from_outside_goes_first_witness :
    strayOpts.available ≠ [] ∧ strayState.theme ∉ strayOpts.available ∧
      jsIndexOf strayOpts.available strayState.theme = -1 ∧
      (toggleTheme strayOpts strayState).theme = strayOpts.available.headD "" :=
  ⟨by decide, by decide,
    (toggle_from_outside_goes_first strayOpts strayState (by decide)
      (by decide)).1,
    (toggle_from_outside_goes_first strayOpts strayState (by decide)
      (by decide)).2⟩

/-! Claim C3: the membership invariant of the current theme. -/

theorem setTheme_theme_mem_or_eq (opts : ThemeOptions) (st : ThemeState)
    (v : ThemeName) :
    (setTheme opts st v).theme = st.theme ∨
      (setTheme opts st v).theme ∈ opts.available := by
  rcases setTheme_theme_cases opts st v with h | ⟨h1, h2⟩
  · exact Or.inl h
  · refine Or.inr ?_
    rw [h1]
    exact h2

theorem applyOp_theme_cases (opts : ThemeOptions) (st : ThemeState)
    (op : ThemeOp) :
    (applyOp opts st op).theme = st.theme ∨
      (applyOp opts st op).theme ∈ opts.available := by
  cases op with
  | set v => exact setTheme_theme_mem_or_eq opts st v
  | toggle =>
    exact setTheme_theme_mem_or_eq opts st
      (opts.available.getD
        (((jsIndexOf opts.available st.theme + 1) %
          (opts.available.length : Int)).toNat) "")

/-- C3 counterexample: a controller with non-empty `available` but a supplied
`defaultTheme` outside it starts — and, after a `setTheme` call, stays —
outside `available`, so the state is not always a member of that set. -/
theorem theme_membership_counterexample :
    strayOpts.available ≠ [] ∧
      (runOps strayOpts strayState [ThemeOp.set "zzz"]).theme ∉
        strayOpts.available := by decide

/-- C3 amended: no operation ever moves the current theme to a value outside
`available`: after any sequence of `setTheme`/`toggleTheme` calls the theme
either is a member of `available` or still equals the construction value.  In
particular, whenever the construction state's theme is a member of
`available` (as when the default is valid), it remains a member after every
sequence of calls; but a supplied `defaultTheme` outside `available` leaves
the state outside that set until a valid change occurs. -/
theorem theme_membership_amended (opts : ThemeOptions) (st : ThemeState)
    (ops : List ThemeOp) :
    (st.theme ∈ opts.available → (runOps opts st ops).theme ∈ opts.available) ∧
    ((runOps opts st ops).theme ∈ opts.available ∨
      (runOps opts st ops).theme = st.theme) := by
  induction ops generalizing st with
  | nil => exact ⟨fun h => h, Or.inr rfl⟩
  | cons op rest ih =>
    have hstep := applyOp_theme_cases opts st op
    have hrun : runOps opts st (op :: rest) =
        runOps opts (applyOp opts st op) rest := rfl
    rw [hrun]
    have ihs := ih (applyOp opts st op)
    constructor
    · intro h
      have h2 : (applyOp opts st op).theme ∈ opts.available := by
        rcases hstep with heq | hmem
        · rwa [heq]
        · exact hmem
      exact ihs.1 h2
    · rcases ihs.2 with hmem | heq
      · exact Or.inl hmem
      · rcases hstep with hsame | hmem2
        · exact Or.inr (heq.trans hsame)
        · refine Or.inl ?_
          rw [heq]
          exact hmem2

/-- C3 witness: the three-theme controller starts at `"a" ∈ available` and is
still inside `available` after a toggle, an invalid request and a toggle. -/
theorem theme_membership_amended_witness :
    cycleState.theme ∈ cycleOpts.available ∧
      (runOps cycleOpts cycleState
        [ThemeOp.toggle, ThemeOp.set "zzz", ThemeOp.toggle]).theme ∈
        cycleOpts.available :=
  ⟨by decide,
    (theme_membership_amended cycleOpts cycleState
      [ThemeOp.toggle, ThemeOp.set "zzz", ThemeOp.toggle]).1 (by decide)⟩

/-! Claim C8: `toggleTheme` advances cyclically through `available`. -/

/-- C8: `toggleTheme()` sets the theme whose index is `(index of the current
theme) + 1` modulo `available.length`, wrapping from the last entry to the
first; with `available = [a, b, c]` starting at `a` successive toggles yield
`b`, `c`, `a`; and with a single available entry the call is a complete
no-op (it passes through the equality guard of `setTheme`). -/
theorem toggle_advances_cyclically (opts : ThemeOptions) (st : ThemeState)
    (h : st.theme ∈ opts.available) :
    ((toggleTheme opts st).theme =
      opts.available.getD
        (((jsIndexOf opts.available st.theme + 1) %
          (opts.available.length : Int)).toNat) "") ∧
    (∀ a b c, opts.available = [a, b, c] → a ≠ b → a ≠ c → b ≠ c →
      st.theme = a →
      (toggleTheme opts st).theme = b ∧
      (toggleTheme opts (toggleTheme opts st)).theme = c ∧
      (toggleTheme opts (toggleTheme opts (toggleTheme opts st))).theme = a) ∧
    (∀ a, opts.available = [a] → toggleTheme opts st = st) := by
  have hne : opts.available ≠ [] := List.ne_nil_of_mem h
  refine ⟨toggleTheme_theme_getD opts st hne, ?_, ?_⟩
  · intro a b c hav hab hac hbc hth
    have hidx0 : jsIndexOf opts.available st.theme = 0 := by
      rw [hav, hth]
      simp [jsIndexOf, idxOfAux]
    have t1 : (toggleTheme opts st).theme = b := by
      rw [toggleTheme_theme_getD opts st hne, hidx0, hav]
      norm_num [List.getD]
    have hidx1 : jsIndexOf opts.available (toggleTheme opts st).theme = 1 := by
      rw [hav, t1]
      simp [jsIndexOf, idxOfAux, hab]
    have t2 : (toggleTheme opts (toggleTheme opts st)).theme = c := by
      rw [toggleTheme_theme_getD opts (toggleTheme opts st) hne, hidx1, hav]
      have htn : Int.toNat 2 = 2 := rfl
      norm_num [List.getD, htn]
    have hidx2 : jsIndexOf opts.available
        (toggleTheme opts (toggleTheme opts st)).theme = 2 := by
      rw [hav, t2]
      simp [jsIndexOf, idxOfAux, hac, hbc]
    have t3 : (toggleTheme opts
        (toggleTheme opts (toggleTheme opts st))).theme = a := by
      rw [toggleTheme_theme_getD opts
        (toggleTheme opts (toggleTheme opts st)) hne, hidx2, hav]
      norm_num [List.getD]
    exact ⟨t1, t2, t3⟩
  · intro a hav
    have hth : st.theme = a := by
      rw [hav] at h
      simpa using h
    have hidx : jsIndexOf opts.available st.theme = 0 := by
      rw [hav, hth]
      simp [jsIndexOf, idxOfAux]
    have harg : opts.available.getD
        (((jsIndexOf opts.available st.theme + 1) %
          (opts.available.length : Int)).toNat) "" = a := by
      rw [hidx, hav]
      norm_num [List.getD]
    rw [toggleTheme_eq_setTheme, harg, ← hth, setTheme_current]

/-- C8 witness: the three-theme controller starting at `"a"` toggles to
`"b"`, then `"c"`, then back to `"a"`. -/
theorem toggle_advances_cyclically_witness :
    cycleState.theme ∈ cycleOpts.available ∧
      (toggleTheme cycleOpts cycleState).theme = "b" ∧
      (toggleTheme cycleOpts (toggleTheme cycleOpts cycleState)).theme = "c" ∧
      (toggleTheme cycleOpts (toggleTheme cycleOpts
        (toggleTheme cycleOpts cycleState))).theme = "a" := by
  have hcy := (toggle_advances_cyclically cycleOpts cycleState
    (by decide)).2.1 "a" "b" "c" rfl (by decide) (by decide) (by decide) rfl
  exact ⟨by decide, hcy.1, hcy.2.1, hcy.2.2⟩

/-! Claim C1: the end-to-end startup scenario. -/

/-- C1 counterexample: in the scenario (`available = ["red", "blue"]`,
default `"blue"`, empty storage, no detection) it is NOT the case that after
initialization the theme is `"blue"` AND the root carries class
`"theme-blue"` AND `data-theme="blue"` AND storage holds `"blue"`: the
resolved value equals the construction default, so the `setTheme` call inside
the initializer is stopped by its equality guard and neither the DOM markers
nor the storage are written. -/
theorem init_scenario_counterexample :
    ¬ ((initializeTheme scenOpts scenState).state.theme = "blue" ∧
        "theme-blue" ∈ (initializeTheme scenOpts scenState).state.root.classList ∧
        (initializeTheme scenOpts scenState).state.root.dataTheme = some "blue" ∧
        readStored scenOpts (initializeTheme scenOpts scenState).state =
          some "blue") := by decide

/-- C1 amended: in the scenario the initializer resolves `"blue"` and the
current theme is `"blue"` afterwards, but since the resolved value equals the
construction default the final `setTheme` is a no-op: the root element (no
class marker added, no `data-theme` attribute set) and the storage backend
(still empty) are unchanged. -/
theorem init_scenario_amended :
    (initializeTheme scenOpts scenState).resolved = "blue" ∧
      (initializeTheme scenOpts scenState).state.theme = "blue" ∧
      (initializeTheme scenOpts scenState).state = scenState := by decide

/-! Claim C2: the class sweep when switching themes. -/

/-- C2 counterexample: switching from `"x"` (class `"cx"`) to `"y"` (class
`"cy"`) after `"x"`'s entry was removed from the `themes` record leaves the
stale `"cx"` marker on the root: the sweep only removes classes of currently
configured themes. -/
theorem sweep_drift_counterexample :
    "cy" ∈ (setTheme driftOpts2
      (setTheme driftOpts1 driftState "x") "y").root.classList ∧
    "cx" ∈ (setTheme driftOpts2
      (setTheme driftOpts1 driftState "x") "y").root.classList := by decide

/-- C2 amended: provided theme `X`'s entry (with non-empty class `cx`) is
still present in the `themes` record when `setTheme(Y)` runs, and `Y` (with
non-empty class `cy ≠ cx`) is available and differs from the current theme
`X`, the root's class set afterwards contains `cy` and does not contain
`cx`.  The unconditional sweep guarantees this for every theme still
configured, but not for entries removed from the record between calls. -/
theorem sweep_removes_old_class_amended (opts : ThemeOptions)
    (st : ThemeState) (x y cx cy : ThemeName) (cfgx cfgy : ThemeConfig)
    (hx : (x, cfgx) ∈ opts.themes) (hxc : cfgx.«class» = some cx)
    (hcx : cx ≠ "") (hy : themeLookup opts.themes y = some cfgy)
    (hyc : cfgy.«class» = some cy) (hcy : cy ≠ "") (hne : cx ≠ cy)
    (hmem : y ∈ opts.available) (hth : st.theme = x) (hxy : x ≠ y) :
    cy ∈ (setTheme opts st y).root.classList ∧
      cx ∉ (setTheme opts st y).root.classList := by
  have hroot : (setTheme opts st y).root =
      applyThemeVisuals opts.themes y st.root := by
    rw [setTheme, if_pos hmem, if_neg (by rw [hth]; exact hxy)]
  rw [hroot, applyThemeVisuals_classList_eq, hy]
  simp only [hyc]
  rw [if_pos hcy]
  constructor
  · exact mem_addClassToken.mpr (Or.inr rfl)
  · intro habs
    rcases mem_addClassToken.mp habs with hsw | heq
    · exact not_mem_sweepClasses hx hxc hcx hsw
    · exact hne heq

/-- C2 witness: with both entries still configured, switching the drift
controller from `"y"` (class `"cy"`) to `"x"` (class `"cx"`) leaves `"cx"`
present and `"cy"` absent. -/
theorem sweep_removes_old_class_amended_witness :
    "cx" ∈ (setTheme driftOpts1 driftState "x").root.classList ∧
      "cy" ∉ (setTheme driftOpts1 driftState "x").root.classList :=
  sweep_removes_old_class_amended driftOpts1 driftState "y" "x" "cy" "cx"
    { «class» := some "cy" } { «class» := some "cx" }
    (by decide) (by decide) (by decide) (by decide) (by decide) (by decide)
    (by decide) (by decide) (by decide) (by decide)

/-! Claim C4: startup resolution priority. -/

theorem initializeTheme_resolved_eq (opts : ThemeOptions) (st : ThemeState) :
    (initializeTheme opts st).resolved =
      (if storedValid opts st then (readStored opts st).getD ""
       else
         match (if (!storedValid opts st && opts.detectTheme.isSome) then
             opts.detectTheme.getD none
           else none) with
         | some d =>
           if d ≠ "" ∧ d ∈ opts.available then d else resolveDefault opts
         | none => resolveDefault opts) := rfl

theorem initializeTheme_detectInvoked_eq (opts : ThemeOptions)
    (st : ThemeState) :
    (initializeTheme opts st).detectInvoked =
      (!storedValid opts st && opts.detectTheme.isSome) := rfl

/-- C4 amended: the initializer resolves with the priority: a stored value
that is present, non-empty and a member of `available` wins (and the
detection callback is then not invoked); otherwise a supplied detection
callback returning a non-empty member of `available` wins; otherwise the
configured default is used.  (The code checks JavaScript truthiness, so an
empty-string stored or detected value is treated as absent even when `""` is
in `available` — the claim as stated fails on that input.) -/
theorem startup_resolution_amended (opts : ThemeOptions) (st : ThemeState) :
    (∀ s, readStored opts st = some s → s ≠ "" → s ∈ opts.available →
      (initializeTheme opts st).resolved = s ∧
        (initializeTheme opts st).detectInvoked = false) ∧
    (storedValid opts st = false →
      ∀ d, opts.detectTheme = some (some d) → d ≠ "" → d ∈ opts.available →
        (initializeTheme opts st).resolved = d) ∧
    (storedValid opts st = false →
      (∀ d, opts.detectTheme = some (some d) → d = "" ∨ d ∉ opts.available) →
      (initializeTheme opts st).resolved = resolveDefault opts) ∧
    ((initializeTheme opts st).detectInvoked = true →
      storedValid opts st = false) := by
  refine ⟨?_, ?_, ?_, ?_⟩
  · intro s hs hne hmem
    have hval : storedValid opts st = true := by
      unfold storedValid
      rw [hs]
      simp [hne, hmem]
    constructor
    · rw [initializeTheme_resolved_eq opts st, hval, hs]
      rfl
    · rw [initializeTheme_detectInvoked_eq opts st, hval]
      rfl
  · intro hsv d hd hne hmem
    rw [initializeTheme_resolved_eq opts st, hsv, hd]
    show (if d ≠ "" ∧ d ∈ opts.available then d else resolveDefault opts) = d
    exact if_pos ⟨hne, hmem⟩
  · intro hsv hnone
    rcases hdt : opts.detectTheme with _ | od
    · rw [initializeTheme_resolved_eq opts st, hsv, hdt]
      rfl
    · rcases od with _ | d
      · rw [initializeTheme_resolved_eq opts st, hsv, hdt]
        rfl
      · rw [initializeTheme_resolved_eq opts st, hsv, hdt]
        show (if d ≠ "" ∧ d ∈ opts.available then d
          else resolveDefault opts) = resolveDefault opts
        have hneg : ¬(d ≠ "" ∧ d ∈ opts.available) := by
          rintro ⟨h1, h2⟩
          rcases hnone d hdt with he | hnm
          · exact h1 he
          · exact hnm h2
        exact if_neg hneg
  · intro hinv
    rw [initializeTheme_detectInvoked_eq opts st] at hinv
    simp only [Bool.and_eq_true, Bool.not_eq_true'] at hinv
    exact hinv.1

/-- C4 counterexample: the backend stores `""` under `"theme"` and `""` is a
member of `available`, yet the initializer does not resolve to the stored
value: JavaScript truthiness discards the empty string. -/
theorem startup_resolution_counterexample :
    readStored emptyNameOpts emptyNameState = some "" ∧
      "" ∈ emptyNameOpts.available ∧
      (initializeTheme emptyNameOpts emptyNameState).resolved ≠ "" := by decide

/-- C4 witness: with stored value `"s"` and a detection callback returning
`"d"` (both available and non-empty), the initializer resolves `"s"` and
never invokes the callback. -/
theorem startup_resolution_amended_witness :
    readStored storedOpts storedState = some "s" ∧
      (initializeTheme storedOpts storedState).resolved = "s" ∧
      (initializeTheme storedOpts storedState).detectInvoked = false := by
  have happ := (startup_resolution_amended storedOpts storedState).1 "s"
    (by decide) (by decide) (by decide)
  exact ⟨by decide, happ.1, happ.2⟩

end VueThemePlugin
